import Mathlib

/-!
Shallow embedding of the ExpenseTracker client screen
(src/app/index.js and src/unnamed/part_000 — the two files hold the same
component in JS and TS form).

Modelling conventions:
* JS numbers are modelled as rationals (`ℚ`); the arithmetic the claims
  touch is exact addition of amounts and decimal parsing.
* `id: number | string` becomes the sum type `ExpenseId`; JS strict
  equality `!==` across the two branches is inequality of the sum type.
* Stateful component fields become the record `AppState`; each async
  handler becomes a function of the prior state plus the server response,
  returning the next state together with the observable effects (request
  body issued, error alert shown).
* `parseFloat` is modelled for decimal literals with optional sign,
  fraction and exponent; `isNaN(parseFloat x)` becomes `parseFloat x = none`.
  (JS oddities such as `Infinity` or hex input are outside the model.)
-/

/-- Identifier type for `id: number | string`. -/
inductive ExpenseId where
  | num (n : ℚ)
  | str (s : String)
  deriving DecidableEq, Repr

/-- The `Expense` interface (src/unnamed/part_000 lines 19–25). -/
structure Expense where
  id : ExpenseId
  amount : ℚ
  description : String
  category : String
  date : String
  deriving DecidableEq, Repr

/-- The fixed category list (line 27). -/
def categories : List String :=
  ["Food", "Transportation", "Entertainment", "Shopping", "Bills", "Health", "Other"]

/-- Component state: the `useState` fields of `ExpenseTracker` (lines 30–36). -/
structure AppState where
  expenses : List Expense
  amount : String
  description : String
  category : String
  showAddModal : Bool
  selectedFilter : String
  loading : Bool
  deriving DecidableEq, Repr

/-- Digit run to a natural number, most significant first. -/
def digitsToNat (ds : List Char) : Nat :=
  ds.foldl (fun acc c => 10 * acc + (c.toNat - Char.toNat '0')) 0

/-- Optional exponent sign and digits after an `e`/`E` marker;
    an empty digit run yields exponent 0, as `parseFloat("1e")` does. -/
def expPartVal (cs : List Char) : ℤ :=
  let p : ℤ × List Char :=
    match cs with
    | '-' :: rest => (-1, rest)
    | '+' :: rest => (1, rest)
    | _ => (1, cs)
  p.1 * (digitsToNat (p.2.takeWhile Char.isDigit) : ℤ)

/-- Model of JS `parseFloat`: skip leading whitespace, optional sign,
    integer digits, optional fractional digits, optional exponent.
    Returns `none` exactly when JS would return `NaN` (no digits at all). -/
def parseFloat (s : String) : Option ℚ :=
  let cs := s.data.dropWhile Char.isWhitespace
  let signed : ℚ × List Char :=
    match cs with
    | '-' :: rest => (-1, rest)
    | '+' :: rest => (1, rest)
    | _ => (1, cs)
  let intDigits := signed.2.takeWhile Char.isDigit
  let afterInt := signed.2.dropWhile Char.isDigit
  let fracDigits : List Char :=
    match afterInt with
    | '.' :: rest => rest.takeWhile Char.isDigit
    | _ => []
  let afterFrac : List Char :=
    match afterInt with
    | '.' :: rest => rest.dropWhile Char.isDigit
    | _ => afterInt
  if intDigits.isEmpty && fracDigits.isEmpty then none
  else
    let mantissa : ℚ :=
      (digitsToNat intDigits : ℚ) + (digitsToNat fracDigits : ℚ) / (10 : ℚ) ^ fracDigits.length
    let e : ℤ :=
      match afterFrac with
      | 'e' :: rest => expPartVal rest
      | 'E' :: rest => expPartVal rest
      | _ => 0
    some (signed.1 * mantissa * (10 : ℚ) ^ e)

/-- `getFilteredExpenses` (lines 124–127): the closed-over state fields
    `selectedFilter` and `expenses` are explicit parameters. -/
def getFilteredExpenses (selectedFilter : String) (expenses : List Expense) : List Expense :=
  if selectedFilter = "All" then expenses
  else expenses.filter (fun expense => expense.category == selectedFilter)

/-- `getTotalAmount` (lines 129–132). -/
def getTotalAmount (selectedFilter : String) (expenses : List Expense) : ℚ :=
  let filtered := getFilteredExpenses selectedFilter expenses
  filtered.foldl (fun total expense => total + expense.amount) 0

/-- The `icons` object of `getCategoryIcon` (lines 135–143). -/
def icons : List (String × String) :=
  [("Food", "🍔"), ("Transportation", "🚌"), ("Entertainment", "🎬"),
   ("Shopping", "🛍️"), ("Bills", "🧾"), ("Health", "💊"), ("Other", "📦")]

/-- Value of a JS property read on the `icons` object literal: a string
    glyph held as an own key, an inherited member of `Object.prototype`
    (a function, or the prototype object for `__proto__` — truthy but not
    a glyph), or `undefined`. -/
inductive JsValue where
  | str (s : String)
  | protoMember (name : String)
  | undef
  deriving DecidableEq, Repr

/-- Property names a plain object literal inherits from
    `Object.prototype`, all bound to truthy values. -/
def objectProtoKeys : List String :=
  ["constructor", "hasOwnProperty", "isPrototypeOf", "propertyIsEnumerable",
   "toLocaleString", "toString", "valueOf", "__proto__",
   "__defineGetter__", "__defineSetter__", "__lookupGetter__", "__lookupSetter__"]

/-- JS bracket access `obj[key]` on an object literal with string values:
    an own key wins, otherwise the read walks the prototype chain and
    finds the inherited `Object.prototype` member, otherwise `undefined`. -/
def jsIndex (obj : List (String × String)) (key : String) : JsValue :=
  match obj.lookup key with
  | some v => JsValue.str v
  | none => if key ∈ objectProtoKeys then JsValue.protoMember key else JsValue.undef

/-- JS truthiness of such a value: the empty string and `undefined` are
    falsy; inherited prototype members are truthy. -/
def jsTruthy : JsValue → Bool
  | JsValue.str s => s != ""
  | JsValue.protoMember _ => true
  | JsValue.undef => false

/-- JS `a || b`. -/
def jsOr (a b : JsValue) : JsValue :=
  if jsTruthy a then a else b

/-- Tests that a JS value is a non-empty string glyph. -/
def JsValue.isNonEmptyGlyph : JsValue → Bool
  | JsValue.str s => s != ""
  | _ => false

/-- `getCategoryIcon` (lines 134–145): `icons[category] || '📦'`, with
    the bracket access walking the prototype chain. -/
def getCategoryIcon (category : String) : JsValue :=
  jsOr (jsIndex icons category) (JsValue.str "📦")

/-- Body of the POST request built by `addExpense` (lines 66–71). -/
structure NewExpense where
  amount : ℚ
  description : String
  category : String
  date : String
  deriving DecidableEq, Repr

/-- Observable outcome of one `addExpense` call: next state, the request
    body sent (`none` when validation stopped before the network call),
    and whether an error alert was shown. -/
structure SubmitResult where
  state : AppState
  request : Option NewExpense
  errorShown : Bool
  deriving DecidableEq, Repr

/-- `addExpense` (lines 56–92). `now` is `new Date().toISOString()`;
    `server` is the POST response: `Except.ok` the saved record on a 2xx
    status, `Except.error` on network failure or `!response.ok`. -/
def addExpense (s : AppState) (now : String) (server : Except Unit Expense) : SubmitResult :=
  if s.amount = "" ∨ s.description = "" then
    { state := s, request := none, errorShown := true }
  else
    match parseFloat s.amount with
    | none => { state := s, request := none, errorShown := true }
    | some amt =>
      let newExpense : NewExpense :=
        { amount := amt, description := s.description.trim,
          category := s.category, date := now }
      match server with
      | Except.ok savedExpense =>
          { state := { s with
              expenses := savedExpense :: s.expenses,
              amount := "", description := "", category := "Food",
              showAddModal := false, loading := false },
            request := some newExpense, errorShown := false }
      | Except.error _ =>
          { state := { s with loading := false },
            request := some newExpense, errorShown := true }

/-- Outcome of one `fetchExpenses` or `deleteExpenseAPI` call. -/
structure CallResult where
  state : AppState
  errorShown : Bool
  deriving DecidableEq, Repr

/-- `fetchExpenses` (lines 42–54): `server` is the GET response. -/
def fetchExpenses (s : AppState) (server : Except Unit (List Expense)) : CallResult :=
  match server with
  | Except.ok data => { state := { s with expenses := data, loading := false }, errorShown := false }
  | Except.error _ => { state := { s with loading := false }, errorShown := true }

/-- `deleteExpenseAPI` (lines 109–122): `serverOk` is `response.ok` of
    the DELETE call (false also covers network failure). -/
def deleteExpenseAPI (s : AppState) (x : ExpenseId) (serverOk : Bool) : CallResult :=
  if serverOk then
    { state := { s with
        expenses := s.expenses.filter (fun expense => expense.id != x),
        loading := false },
      errorShown := false }
  else
    { state := { s with loading := false }, errorShown := true }

/-! Concrete sample data, used by the witness theorems. -/

/-- Sample list from the spec scenario: 12.50 in Food, 40 in Bills. -/
def sampleExpenses : List Expense :=
  [⟨ExpenseId.num 1, 25/2, "Lunch", "Food", "2024-01-01"⟩,
   ⟨ExpenseId.num 2, 40, "Electric bill", "Bills", "2024-01-02"⟩]

/-- Sample state with a valid pending form. -/
def baseState : AppState :=
  { expenses := sampleExpenses, amount := "20", description := " Coffee ",
    category := "Food", showAddModal := true, selectedFilter := "All", loading := false }

/-- Sample state whose pending amount does not parse. -/
def invalidState : AppState :=
  { baseState with amount := "abc" }

/-- Sample state whose list holds two records sharing one id. -/
def dupState : AppState :=
  { baseState with expenses :=
      [⟨ExpenseId.num 1, 5, "first", "Food", "2024-01-01"⟩,
       ⟨ExpenseId.num 1, 7, "second", "Bills", "2024-01-02"⟩] }

/-- Sample record returned by the server on create. -/
def savedSample : Expense :=
  ⟨ExpenseId.num 3, 20, "Coffee", "Food", "2024-05-05T00:00:00.000Z"⟩

/-! Helper lemmas. -/

/-- Folding addition of amounts from the left equals the accumulator plus
    the sum of the mapped amounts. -/
theorem foldl_add_amount (l : List Expense) (a : ℚ) :
    l.foldl (fun total expense => total + expense.amount) a
      = a + (l.map Expense.amount).sum := by
  induction l generalizing a with
  | nil => simp
  | cons e t ih => simp [ih, add_assoc]

/-- Length of the kept records plus the number of removed records equals
    the original length. -/
theorem length_filter_ne_id_add_countP (l : List Expense) (x : ExpenseId) :
    (l.filter (fun e => e.id != x)).length + l.countP (fun e => e.id == x) = l.length := by
  induction l with
  | nil => rfl
  | cons e t ih =>
    simp only [bne] at ih ⊢
    by_cases he : e.id = x
    · simp [List.filter_cons, List.countP_cons, he]
      omega
    · simp [List.filter_cons, List.countP_cons, beq_iff_eq, he]
      omega

/-- C1: for every list and filter, `getTotalAmount` equals the sum of the
    amounts over `getFilteredExpenses`; with filter "All" it is the sum
    over every record; with a category filter it is the sum over exactly
    the matching records; with no matching records it is 0. -/
theorem getTotalAmount_spec (expenses : List Expense) :
    (∀ f : String, getTotalAmount f expenses
        = ((getFilteredExpenses f expenses).map Expense.amount).sum)
    ∧ getTotalAmount "All" expenses = (expenses.map Expense.amount).sum
    ∧ (∀ c : String, c ≠ "All" →
        getTotalAmount c expenses
          = ((expenses.filter (fun e => e.category == c)).map Expense.amount).sum)
    ∧ (∀ c : String, c ≠ "All" → (∀ e ∈ expenses, e.category ≠ c) →
        getTotalAmount c expenses = 0) := by
  have base : ∀ f : String, getTotalAmount f expenses
      = ((getFilteredExpenses f expenses).map Expense.amount).sum := by
    intro f
    unfold getTotalAmount
    rw [foldl_add_amount, zero_add]
  refine ⟨base, ?_, ?_, ?_⟩
  · rw [base]
    unfold getFilteredExpenses
    rw [if_pos rfl]
  · intro c hc
    rw [base]
    unfold getFilteredExpenses
    rw [if_neg hc]
  · intro c hc hnone
    rw [base]
    unfold getFilteredExpenses
    rw [if_neg hc]
    have hnil : expenses.filter (fun e => e.category == c) = [] := by
      rw [List.filter_eq_nil_iff]
      intro e he
      simpa using hnone e he
    simp [hnil]

/-- Witness for C1 at the spec scenario list and filter "Food". -/
theorem getTotalAmount_spec_witness :
    getTotalAmount "Food" sampleExpenses
      = ((sampleExpenses.filter (fun e => e.category == "Food")).map Expense.amount).sum :=
  (getTotalAmount_spec sampleExpenses).2.2.1 "Food" (by decide)

/-- C2: `getFilteredExpenses "All"` is the identity on the list; with a
    category filter it is an order-preserving subsequence holding exactly
    the records whose category matches. -/
theorem getFilteredExpenses_spec (expenses : List Expense) :
    getFilteredExpenses "All" expenses = expenses
    ∧ (∀ c : String, c ≠ "All" →
        (getFilteredExpenses c expenses).Sublist expenses
        ∧ (∀ e : Expense,
            e ∈ getFilteredExpenses c expenses ↔ e ∈ expenses ∧ e.category = c)) := by
  constructor
  · unfold getFilteredExpenses
    rw [if_pos rfl]
  · intro c hc
    unfold getFilteredExpenses
    rw [if_neg hc]
    exact ⟨List.filter_sublist expenses, by intro e; simp [List.mem_filter]⟩

/-- Witness for C2 at the spec scenario list and filter "Bills". -/
theorem getFilteredExpenses_spec_witness :
    (getFilteredExpenses "Bills" sampleExpenses).Sublist sampleExpenses :=
  ((getFilteredExpenses_spec sampleExpenses).2 "Bills" (by decide)).1

/-- C3: when the pending amount is empty, the description is empty, or the
    amount does not parse as a number, `addExpense` issues no request,
    shows an error, and leaves the whole state unchanged. -/
theorem addExpense_validation (s : AppState) (now : String) (server : Except Unit Expense)
    (h : s.amount = "" ∨ s.description = "" ∨ parseFloat s.amount = none) :
    (addExpense s now server).request = none
    ∧ (addExpense s now server).errorShown = true
    ∧ (addExpense s now server).state = s := by
  unfold addExpense
  by_cases h1 : s.amount = "" ∨ s.description = ""
  · rw [if_pos h1]
    exact ⟨rfl, rfl, rfl⟩
  · rw [if_neg h1]
    have hp : parseFloat s.amount = none := by
      rcases h with h | h | h
      · exact absurd (Or.inl h) h1
      · exact absurd (Or.inr h) h1
      · exact h
    rw [hp]
    exact ⟨rfl, rfl, rfl⟩

/-- Witness for C3 at a state with a non-numeric pending amount. -/
theorem addExpense_validation_witness :
    (addExpense invalidState "2024-05-05T00:00:00.000Z" (Except.ok savedSample)).request = none
    ∧ (addExpense invalidState "2024-05-05T00:00:00.000Z" (Except.ok savedSample)).errorShown = true
    ∧ (addExpense invalidState "2024-05-05T00:00:00.000Z" (Except.ok savedSample)).state
        = invalidState :=
  addExpense_validation invalidState "2024-05-05T00:00:00.000Z" (Except.ok savedSample)
    (Or.inr (Or.inr (by decide)))

/-- C4: on a successful create, `addExpense` prepends the server record to
    the list, clears the amount and description fields and the dialog
    flag, and the request body carries the parsed amount, the trimmed
    description, the selected category and the timestamp. -/
theorem addExpense_success (s : AppState) (now : String) (saved : Expense) (q : ℚ)
    (hA : s.amount ≠ "") (hD : s.description ≠ "") (hP : parseFloat s.amount = some q) :
    (addExpense s now (Except.ok saved)).state.expenses = saved :: s.expenses
    ∧ (addExpense s now (Except.ok saved)).state.amount = ""
    ∧ (addExpense s now (Except.ok saved)).state.description = ""
    ∧ (addExpense s now (Except.ok saved)).state.showAddModal = false
    ∧ (addExpense s now (Except.ok saved)).request
        = some (NewExpense.mk q (s.description.trim) s.category now) := by
  unfold addExpense
  rw [if_neg (by simp [hA, hD]), hP]
  exact ⟨rfl, rfl, rfl, rfl, rfl⟩

/-- Witness for C4 at a valid pending form and a concrete server record. -/
theorem addExpense_success_witness :
    (addExpense baseState "2024-05-05T00:00:00.000Z" (Except.ok savedSample)).state.expenses
        = savedSample :: baseState.expenses
    ∧ (addExpense baseState "2024-05-05T00:00:00.000Z" (Except.ok savedSample)).state.amount = ""
    ∧ (addExpense baseState "2024-05-05T00:00:00.000Z" (Except.ok savedSample)).state.description
        = ""
    ∧ (addExpense baseState "2024-05-05T00:00:00.000Z"
        (Except.ok savedSample)).state.showAddModal = false
    ∧ (addExpense baseState "2024-05-05T00:00:00.000Z" (Except.ok savedSample)).request
        = some (NewExpense.mk 20 (baseState.description.trim) baseState.category
            "2024-05-05T00:00:00.000Z") :=
  addExpense_success baseState "2024-05-05T00:00:00.000Z" savedSample 20
    (by decide) (by decide) (by simp [baseState, parseFloat, digitsToNat])

/-- C5: a successful delete keeps the remaining records in order (sublist)
    and keeps exactly the records whose id differs from the given id, with
    their multiplicities; a failed delete leaves the list untouched. -/
theorem deleteExpenseAPI_spec (s : AppState) (x : ExpenseId) :
    ((deleteExpenseAPI s x true).state.expenses.Sublist s.expenses
      ∧ (∀ e : Expense, (deleteExpenseAPI s x true).state.expenses.count e
            = if e.id = x then 0 else s.expenses.count e))
    ∧ (deleteExpenseAPI s x false).state.expenses = s.expenses := by
  unfold deleteExpenseAPI
  rw [if_pos rfl, if_neg (by simp)]
  refine ⟨⟨List.filter_sublist s.expenses, ?_⟩, rfl⟩
  intro e
  by_cases he : e.id = x
  · rw [if_pos he, List.count_eq_zero]
    simp [he]
  · rw [if_neg he, List.count_filter (by simp [he])]

/-- C6: on failure of any of the three remote operations, the expense list
    and the pending input fields are exactly as before the call; an error
    alert is shown on fetch and delete failure. -/
theorem failure_is_atomic (s : AppState) (now : String) (x : ExpenseId) :
    ((fetchExpenses s (Except.error ())).state.expenses = s.expenses
      ∧ (fetchExpenses s (Except.error ())).state.amount = s.amount
      ∧ (fetchExpenses s (Except.error ())).state.description = s.description
      ∧ (fetchExpenses s (Except.error ())).state.category = s.category
      ∧ (fetchExpenses s (Except.error ())).errorShown = true)
    ∧ ((addExpense s now (Except.error ())).state.expenses = s.expenses
      ∧ (addExpense s now (Except.error ())).state.amount = s.amount
      ∧ (addExpense s now (Except.error ())).state.description = s.description
      ∧ (addExpense s now (Except.error ())).state.category = s.category
      ∧ (addExpense s now (Except.error ())).state.showAddModal = s.showAddModal)
    ∧ ((deleteExpenseAPI s x false).state.expenses = s.expenses
      ∧ (deleteExpenseAPI s x false).state.amount = s.amount
      ∧ (deleteExpenseAPI s x false).state.description = s.description
      ∧ (deleteExpenseAPI s x false).state.category = s.category
      ∧ (deleteExpenseAPI s x false).errorShown = true) := by
  refine ⟨⟨rfl, rfl, rfl, rfl, rfl⟩, ?_, ?_⟩
  · unfold addExpense
    by_cases h1 : s.amount = "" ∨ s.description = ""
    · rw [if_pos h1]
      exact ⟨rfl, rfl, rfl, rfl, rfl⟩
    · rw [if_neg h1]
      cases hp : parseFloat s.amount with
      | none => exact ⟨rfl, rfl, rfl, rfl, rfl⟩
      | some amt => exact ⟨rfl, rfl, rfl, rfl, rfl⟩
  · unfold deleteExpenseAPI
    rw [if_neg (by simp)]
    exact ⟨rfl, rfl, rfl, rfl, rfl⟩

/-- A string outside the seven categories is an own key of `icons` for
    none of its entries, so the own-key lookup misses. -/
theorem icons_lookup_eq_none (s : String) (hs : s ∉ categories) :
    icons.lookup s = none := by
  simp only [categories, List.mem_cons, List.not_mem_nil, or_false, not_or] at hs
  obtain ⟨h1, h2, h3, h4, h5, h6, h7⟩ := hs
  have b1 : (s == "Food") = false := beq_eq_false_iff_ne.mpr h1
  have b2 : (s == "Transportation") = false := beq_eq_false_iff_ne.mpr h2
  have b3 : (s == "Entertainment") = false := beq_eq_false_iff_ne.mpr h3
  have b4 : (s == "Shopping") = false := beq_eq_false_iff_ne.mpr h4
  have b5 : (s == "Bills") = false := beq_eq_false_iff_ne.mpr h5
  have b6 : (s == "Health") = false := beq_eq_false_iff_ne.mpr h6
  have b7 : (s == "Other") = false := beq_eq_false_iff_ne.mpr h7
  simp [icons, List.lookup, b1, b2, b3, b4, b5, b6, b7]

/-- C7 counterexample: "constructor" is outside the seven categories, yet
    the read finds the inherited `Object.prototype.constructor`, which is
    truthy, so `||` never falls back and the result is not the default
    glyph. -/
theorem getCategoryIcon_default_counterexample :
    "constructor" ∉ categories
    ∧ getCategoryIcon "constructor" ≠ JsValue.str "📦"
    ∧ getCategoryIcon "constructor" = JsValue.protoMember "constructor" := by
  refine ⟨by decide, by decide, by decide⟩

/-- C7 amended: `getCategoryIcon` returns a non-empty glyph on each of the
    seven categories; on every other string that is not an inherited
    `Object.prototype` member name it returns the default glyph; on an
    inherited member name it returns that inherited truthy member instead
    of the default. -/
theorem getCategoryIcon_prototype_spec :
    (∀ c ∈ categories, (getCategoryIcon c).isNonEmptyGlyph = true)
    ∧ (∀ s : String, s ∉ categories → s ∉ objectProtoKeys →
        getCategoryIcon s = JsValue.str "📦")
    ∧ (∀ s : String, s ∉ categories → s ∈ objectProtoKeys →
        getCategoryIcon s = JsValue.protoMember s) := by
  refine ⟨by decide, ?_, ?_⟩
  · intro s hs hp
    have hlk := icons_lookup_eq_none s hs
    simp [getCategoryIcon, jsIndex, jsOr, jsTruthy, hlk, hp]
  · intro s hs hp
    have hlk := icons_lookup_eq_none s hs
    simp [getCategoryIcon, jsIndex, jsOr, jsTruthy, hlk, hp]

/-- Witness for the amended C7 on a named category, an unrecognized plain
    string, and an inherited prototype member name. -/
theorem getCategoryIcon_prototype_spec_witness :
    (getCategoryIcon "Health").isNonEmptyGlyph = true
    ∧ getCategoryIcon "Groceries" = JsValue.str "📦"
    ∧ getCategoryIcon "toString" = JsValue.protoMember "toString" :=
  ⟨getCategoryIcon_prototype_spec.1 "Health" (by decide),
   getCategoryIcon_prototype_spec.2.1 "Groceries" (by decide) (by decide),
   getCategoryIcon_prototype_spec.2.2 "toString" (by decide) (by decide)⟩

/-- C8: on a successful create, `addExpense` also resets the pending
    category selection to the default "Food". -/
theorem addExpense_resets_category (s : AppState) (now : String) (saved : Expense)
    (hA : s.amount ≠ "") (hD : s.description ≠ "") (hP : (parseFloat s.amount).isSome) :
    (addExpense s now (Except.ok saved)).state.category = "Food" := by
  unfold addExpense
  rw [if_neg (by simp [hA, hD])]
  cases hp : parseFloat s.amount with
  | none => rw [hp] at hP; simp at hP
  | some amt => rfl

/-- Witness for C8 at a valid pending form with category "Food". -/
theorem addExpense_resets_category_witness :
    (addExpense baseState "2024-05-05T00:00:00.000Z"
        (Except.ok savedSample)).state.category = "Food" :=
  addExpense_resets_category baseState "2024-05-05T00:00:00.000Z" savedSample
    (by decide) (by decide) (by decide)

/-- C9: a successful delete removes every record whose id equals the given
    id — none survives, every non-matching record survives, and the length
    drops by the number of matching records (so duplicates are all
    removed, and exactly one only when the id is unique). -/
theorem deleteExpenseAPI_removes_all_matching (s : AppState) (x : ExpenseId) :
    (∀ e ∈ (deleteExpenseAPI s x true).state.expenses, e.id ≠ x)
    ∧ (∀ e ∈ s.expenses, e.id ≠ x → e ∈ (deleteExpenseAPI s x true).state.expenses)
    ∧ (deleteExpenseAPI s x true).state.expenses.length
        + (s.expenses.countP (fun e => e.id == x)) = s.expenses.length := by
  unfold deleteExpenseAPI
  rw [if_pos rfl]
  refine ⟨?_, ?_, ?_⟩
  · intro e he
    simp [List.mem_filter] at he
    exact he.2
  · intro e he hne
    simp [List.mem_filter, he, hne]
  · exact length_filter_ne_id_add_countP s.expenses x

/-- Witness for C9 at a list holding two records with the same id: both
    are removed. -/
theorem deleteExpenseAPI_removes_all_matching_witness :
    (∀ e ∈ dupState.expenses, e.id ≠ ExpenseId.num 1 →
        e ∈ (deleteExpenseAPI dupState (ExpenseId.num 1) true).state.expenses)
    ∧ (deleteExpenseAPI dupState (ExpenseId.num 1) true).state.expenses.length
        + (dupState.expenses.countP (fun e => e.id == ExpenseId.num 1))
        = dupState.expenses.length :=
  ⟨(deleteExpenseAPI_removes_all_matching dupState (ExpenseId.num 1)).2.1,
   (deleteExpenseAPI_removes_all_matching dupState (ExpenseId.num 1)).2.2⟩

/-- C10: `getCategoryIcon` is not injective — the glyph of the category
    "Other" coincides with the default glyph of an unrecognized string. -/
theorem getCategoryIcon_not_injective :
    getCategoryIcon "Other" = getCategoryIcon "NotACategory"
    ∧ "Other" ≠ "NotACategory"
    ∧ "NotACategory" ∉ categories :=
  ⟨by decide, by decide, by decide⟩
